import Mathlib

/-!
Verification of the EasyChatbot client (`src/chat_bot/easy_chat.py`).

The development shallowly embeds the repository's single source file:

* `Json` models Python's JSON-like dynamic values (dicts are ordered
  association lists, mirroring Python's insertion-ordered `dict`).
* `PyErr` models the kinds of exceptions the relevant Python operations can
  raise; fallible code returns `Except PyErr _`.
* Python string primitives used by the source (`str.lower`, `str.strip`,
  `str.split` on a one-character separator, `str.startswith`,
  `"/".join`, `re.findall(r'_pages_(\d+)', s)`) are embedded as executable
  Lean functions over `String` (ASCII scope, which covers all string data the
  source manipulates).
* `urllib.parse.unquote` and `json.loads` are Python standard-library calls;
  the normalizer is parameterised over them (`unquote : String → String`,
  `jsonLoads : String → Option Json`, `none` modelling a raised exception).
  Concrete instances (`unquoteAsciiOnly`, `jsonLoadsNone`, ...) are supplied
  for closed evaluations.
-/

/-- Python JSON-like values.  `obj` is an insertion-ordered association
list, mirroring Python's `dict`. -/
inductive Json where
  | null : Json
  | bool : Bool → Json
  | num : Int → Json
  | str : String → Json
  | arr : List Json → Json
  | obj : List (String × Json) → Json

/-- The exception kinds raised by the Python operations modelled here. -/
inductive PyErr where
  | typeError : PyErr
  | keyError : PyErr
  | attributeError : PyErr
  | valueError : PyErr
deriving DecidableEq

/-- `d[k]` lookup in an insertion-ordered dict (first matching key). -/
def dictLookup (kvs : List (String × Json)) (k : String) : Option Json :=
  match kvs with
  | [] => none
  | (k2, v) :: rest => if k2 = k then some v else dictLookup rest k

/-- `d[k] = v` assignment in an insertion-ordered dict: replaces the value in
place if the key exists, otherwise appends the new entry at the end (Python
`dict` semantics). -/
def dictSet (kvs : List (String × Json)) (k : String) (v : Json) :
    List (String × Json) :=
  match kvs with
  | [] => [(k, v)]
  | (k2, v2) :: rest =>
    if k2 = k then (k2, v) :: rest else (k2, v2) :: dictSet rest k v

/-- Lookup through a `Json` value; `none` on non-dicts. -/
def jsonLookup (v : Json) (k : String) : Option Json :=
  match v with
  | .obj kvs => dictLookup kvs k
  | _ => none

/-- `d[k] = v` on a `Json` value that is known to be a dict (the embedding
only applies it in positions where the Python code has already established
that the value is a `dict`). -/
def jsonSetKey (v : Json) (k : String) (x : Json) : Json :=
  match v with
  | .obj kvs => .obj (dictSet kvs k x)
  | other => other

/-- Is the value a Python `dict`? (`isinstance(v, dict)`). -/
def isJsonObj (v : Json) : Bool :=
  match v with
  | .obj _ => true
  | _ => false

/-- Is the value a Python `str`? (`isinstance(v, str)`). -/
def isJsonStr (v : Json) : Bool :=
  match v with
  | .str _ => true
  | _ => false

/-- Contiguous-sublist (substring) test on character lists. -/
def charsInfix (needle : List Char) : List Char → Bool
  | [] => needle.isEmpty
  | c :: rest => needle.isPrefixOf (c :: rest) || charsInfix needle rest

/-- `key in v`: Python's `in` operator.  Key containment for dicts,
substring test for strings, element equality for lists, `TypeError` for the
non-iterable values. -/
def pyIn (needle : String) (v : Json) : Except PyErr Bool :=
  match v with
  | .obj kvs => .ok (dictLookup kvs needle).isSome
  | .str s => .ok (charsInfix needle.data s.data)
  | .arr xs =>
    .ok (xs.any fun x =>
      match x with
      | .str t => t = needle
      | _ => false)
  | _ => .error .typeError

/-- `v[k]` with a string key: dict lookup (`KeyError` if absent); `TypeError`
on every other value (Python: string/list indices must be integers). -/
def pyGetItem (v : Json) (k : String) : Except PyErr Json :=
  match v with
  | .obj kvs =>
    match dictLookup kvs k with
    | some x => .ok x
    | none => .error .keyError
  | _ => .error .typeError

/-- Python `str.lower()` (ASCII scope; `Char.toLower` maps A-Z to a-z). -/
def pyLower (s : String) : String :=
  String.mk (s.data.map Char.toLower)

/-- The whitespace characters stripped by Python `str.strip()` (ASCII
scope). -/
def isPySpace (c : Char) : Bool :=
  c = ' ' || c = '\t' || c = '\n' || c = '\r' || c = '\x0b' || c = '\x0c'

/-- Python `str.strip()`: removes leading and trailing whitespace. -/
def pyStrip (s : String) : String :=
  String.mk (((s.data.dropWhile isPySpace).reverse.dropWhile isPySpace).reverse)

/-- Python `s.startswith(p)`. -/
def pyStartsWith (s p : String) : Bool :=
  p.data.isPrefixOf s.data

/-- Splitting on a one-character separator, keeping empty pieces — Python
`s.split(sep)` for the single-character separators the source uses
(`"/"`, `"."`, `"?"`, `"#"`). -/
def pySplitCharAux (sep : Char) : List Char → List Char → List String
  | [], acc => [String.mk acc.reverse]
  | c :: cs, acc =>
    if c = sep then String.mk acc.reverse :: pySplitCharAux sep cs []
    else pySplitCharAux sep cs (c :: acc)

/-- Python `s.split(sep)` for a one-character `sep`. -/
def pySplitChar (s : String) (sep : Char) : List String :=
  pySplitCharAux sep s.data []

/-- Python `sep.join(xs)`. -/
def pyJoin (sep : String) : List String → String
  | [] => ""
  | [x] => x
  | x :: rest => x ++ sep ++ pyJoin sep rest

/-- Maximal leading run of decimal digits (the greedy `\d+`). -/
def takeDigits : List Char → List Char × List Char
  | [] => ([], [])
  | c :: cs =>
    if c.isDigit then
      let p := takeDigits cs
      (c :: p.1, p.2)
    else ([], c :: cs)

/-- One left-to-right scan of `re.findall(r'_pages_(\d+)', s)`: at each
position, try to match the literal `_pages_` followed by at least one digit;
on a match emit the (greedy) digit run and resume after it, otherwise
advance one character.  The fuel argument is initialised to the string
length; every step consumes at least one character, so it never runs out. -/
def findPagesAux : Nat → List Char → List String
  | 0, _ => []
  | _, [] => []
  | fuel + 1, c :: cs =>
    if ("_pages_".data).isPrefixOf (c :: cs) then
      let rest := (c :: cs).drop 7
      let p := takeDigits rest
      match p.1 with
      | [] => findPagesAux fuel cs
      | ds => String.mk ds :: findPagesAux fuel p.2
    else findPagesAux fuel cs

/-- `re.findall(r'_pages_(\d+)', s)`: the ordered list of captured digit
runs. -/
def findPages (s : String) : List String :=
  findPagesAux s.data.length s.data

/-- Hexadecimal digit value, if any. -/
def hexVal (c : Char) : Option Nat :=
  if '0' ≤ c ∧ c ≤ '9' then some (c.toNat - '0'.toNat)
  else if 'a' ≤ c ∧ c ≤ 'f' then some (c.toNat - 'a'.toNat + 10)
  else if 'A' ≤ c ∧ c ≤ 'F' then some (c.toNat - 'A'.toNat + 10)
  else none

/-- A concrete instance of `urllib.parse.unquote`, used for closed
evaluations: decodes `%XX` escapes whose value is ASCII (≤ 0x7F) and leaves
everything else unchanged.  On ASCII-only input this agrees with Python's
`unquote` (a single byte below 0x80 is its own UTF-8 decoding; malformed
escapes are left as-is by Python too). -/
def unquoteAsciiAux : List Char → List Char
  | [] => []
  | '%' :: h1 :: h2 :: rest =>
    match hexVal h1, hexVal h2 with
    | some a, some b =>
      if a * 16 + b ≤ 127 then Char.ofNat (a * 16 + b) :: unquoteAsciiAux rest
      else '%' :: h1 :: h2 :: unquoteAsciiAux rest
    | _, _ => '%' :: unquoteAsciiAux (h1 :: h2 :: rest)
  | c :: cs => c :: unquoteAsciiAux cs

/-- Concrete `unquote` instance for closed evaluations. -/
def unquoteAsciiOnly (s : String) : String :=
  String.mk (unquoteAsciiAux s.data)

/-- A concrete `json.loads` instance in which every parse fails. -/
def jsonLoadsNone : String → Option Json := fun _ => none

/-- A concrete `json.loads` instance for closed evaluations: parses the
single document `{"a":1}` and fails on everything else. -/
def jsonLoadsA1 : String → Option Json :=
  fun s => if s = "\x7b\"a\":1\x7d" then some (.obj [("a", .num 1)]) else none

/-! ## Response Normalizer (`get_json_serializable_data`, lines 21-69)

The Python function raises nothing of its own except what escapes the two
`if` conditions on the context (the two `try` blocks swallow everything,
the first per intent field, the second per citation).  The embedding makes
the uncaught paths explicit through `Except PyErr`. -/

/-- One iteration of the citation loop (lines 57-67).  The whole body is a
single `try`/`except: pass`; mutations performed before an exception
persist, everything after it is skipped.

```
try:
    citation["pages"] = re.findall(r'_pages_(\d+)', citation["filepath"])
    if citation["url"].lower().startswith("http"):
        urlParts = citation["url"].split("/")
        if len(urlParts) >= 4:
            citation["storageaccount_name"] = urlParts[2].split(".")[0]
            citation["storageaccount_container"] = urlParts[3]
            citation["storageaccount_blob"] = unquote("/".join(urlParts[4:]).split("?")[0].split("#")[0])
except:
    pass
```

Failure points, in evaluation order: `citation["filepath"]` (`TypeError` on a
non-dict citation, `KeyError` when absent), `re.findall` (`TypeError` on a
non-string filepath), `citation["url"]` (`KeyError` when absent),
`.lower()` (`AttributeError` on a non-string url). -/
def processCitation (unquote : String → String) (citation : Json) : Json :=
  match citation with
  | .obj kvs =>
    match dictLookup kvs "filepath" with
    | some (.str fp) =>
      let kvs1 := dictSet kvs "pages" (.arr ((findPages fp).map Json.str))
      match dictLookup kvs1 "url" with
      | some (.str url) =>
        if pyStartsWith (pyLower url) "http" then
          let urlParts := pySplitChar url '/'
          if urlParts.length ≥ 4 then
            let kvs2 := dictSet kvs1 "storageaccount_name"
              (.str ((pySplitChar (urlParts.getD 2 "") '.').headD ""))
            let kvs3 := dictSet kvs2 "storageaccount_container"
              (.str (urlParts.getD 3 ""))
            let kvs4 := dictSet kvs3 "storageaccount_blob"
              (.str (unquote ((pySplitChar ((pySplitChar (pyJoin "/" (urlParts.drop 4)) '?').headD "") '#').headD "")))
            .obj kvs4
          else .obj kvs1
        else .obj kvs1
      | _ => .obj kvs1
    | _ => citation
  | _ => citation

/-- Lines 50-54: the intent parse.

```
if "intent" in c["message"]["context"] and isinstance(c["message"]["context"]["intent"], str):
    try:
        c["message"]["context"]["intent"] = json.loads(c["message"]["context"]["intent"])
    except:
        pass
```

The `in` test and the subscript in the `isinstance` argument run outside the
`try`, so they can raise (e.g. `TypeError` when the context is `None`);
only the `json.loads` failure is swallowed. -/
def processIntent (jsonLoads : String → Option Json) (ctx : Json) :
    Except PyErr Json := do
  let b ← pyIn "intent" ctx
  if b then do
    let iv ← pyGetItem ctx "intent"
    match iv with
    | .str s =>
      match jsonLoads s with
      | some v => pure (jsonSetKey ctx "intent" v)
      | none => pure ctx
    | _ => pure ctx
  else pure ctx

/-- Lines 56-67: the citation loop guard and the loop itself.

```
if "citations" in c["message"]["context"] and isinstance(c["message"]["context"]["citations"], list):
    for citation in c["message"]["context"]["citations"]:
        ...
```

The loop mutates the citation dicts in place; functionally that is mapping
`processCitation` over the list. -/
def processCitations (unquote : String → String) (ctx : Json) :
    Except PyErr Json := do
  let b ← pyIn "citations" ctx
  if b then do
    let cv ← pyGetItem ctx "citations"
    match cv with
    | .arr cits => pure (jsonSetKey ctx "citations" (.arr (cits.map (processCitation unquote))))
    | _ => pure ctx
  else pure ctx

/-- The two context transformations in source order. -/
def processContext (jsonLoads : String → Option Json)
    (unquote : String → String) (ctx : Json) : Except PyErr Json := do
  let c1 ← processIntent jsonLoads ctx
  processCitations unquote c1

/-- The raw completion message, as the attributes the source reads
(lines 41-45). -/
structure ChoiceMessage where
  refusal : Json
  role : Json
  content : Json
  end_turn : Json
  context : Json

/-- A raw completion choice (lines 37-38). -/
structure Choice where
  finish_reason : Json
  index : Json
  message : ChoiceMessage

/-- The usage counters (lines 30-32). -/
structure CompletionUsage where
  completion_tokens : Json
  prompt_tokens : Json
  total_tokens : Json

/-- The raw completion, as the attributes the source reads. -/
structure Completion where
  choices : List Choice
  created : Json
  id : Json
  model : Json
  object : Json
  system_fingerprint : Json
  usage : CompletionUsage

/-- One iteration of the choice loop (lines 35-68): build the `c` dict, then
run the intent and citation transformations on its context. -/
def normChoice (jsonLoads : String → Option Json)
    (unquote : String → String) (choice : Choice) : Except PyErr Json := do
  let ctx2 ← processContext jsonLoads unquote choice.message.context
  pure (.obj [
    ("finish_reason", choice.finish_reason),
    ("index", choice.index),
    ("message", .obj [
      ("refusal", choice.message.refusal),
      ("role", choice.message.role),
      ("content", choice.message.content),
      ("end_turn", choice.message.end_turn),
      ("context", ctx2)])])

/-- The choice loop: choices processed in order; an uncaught exception in
one iteration aborts the whole function. -/
def normChoices (jsonLoads : String → Option Json)
    (unquote : String → String) : List Choice → Except PyErr (List Json)
  | [] => .ok []
  | ch :: rest => do
    let c ← normChoice jsonLoads unquote ch
    let cs ← normChoices jsonLoads unquote rest
    pure (c :: cs)

/-- `get_json_serializable_data` (lines 21-69), parameterised over the
standard-library calls `json.loads` and `urllib.parse.unquote`. -/
def get_json_serializable_data (jsonLoads : String → Option Json)
    (unquote : String → String) (completion : Completion) :
    Except PyErr Json := do
  let cs ← normChoices jsonLoads unquote completion.choices
  pure (.obj [
    ("choices", .arr cs),
    ("created", completion.created),
    ("id", completion.id),
    ("model", completion.model),
    ("object", completion.object),
    ("system_fingerprint", completion.system_fingerprint),
    ("usage", .obj [
      ("completion_tokens", completion.usage.completion_tokens),
      ("prompt_tokens", completion.usage.prompt_tokens),
      ("total_tokens", completion.usage.total_tokens)])])

/-- Did the call return normally? -/
def exceptIsOk (e : Except PyErr Json) : Bool :=
  match e with
  | .ok _ => true
  | .error _ => false

/-! ## Message model (`EasyChatMessage`, lines 71-79) and `str()` -/

/-- Escape one character for Python `repr` of a string (printable-ASCII
scope: backslash, the active quote, and the common control escapes). -/
def pyEscapeChar (quote : Char) (c : Char) : List Char :=
  if c = '\\' then ['\\', '\\']
  else if c = quote then ['\\', quote]
  else if c = '\n' then ['\\', 'n']
  else if c = '\r' then ['\\', 'r']
  else if c = '\t' then ['\\', 't']
  else [c]

/-- Python `repr` of a string: single-quoted, unless the string contains a
single quote and no double quote. -/
def pyReprStr (s : String) : String :=
  let hasSingle := s.data.contains (Char.ofNat 39)
  let hasDouble := s.data.contains '"'
  let q := if hasSingle && !hasDouble then '"' else Char.ofNat 39
  String.mk (q :: ((s.data.map (pyEscapeChar q)).flatten ++ [q]))

mutual

/-- Python `repr` on the modelled values (printable-ASCII scope for
strings; JSON-style numbers as integers). -/
def pyRepr : Json → String
  | .null => "None"
  | .bool true => "True"
  | .bool false => "False"
  | .num n => toString n
  | .str s => pyReprStr s
  | .arr xs => "[" ++ pyReprElems xs ++ "]"
  | .obj kvs => "\x7b" ++ pyReprEntries kvs ++ "\x7d"

/-- Comma-separated list elements of a Python `repr`. -/
def pyReprElems : List Json → String
  | [] => ""
  | [v] => pyRepr v
  | v :: rest => pyRepr v ++ ", " ++ pyReprElems rest

/-- Comma-separated dict entries of a Python `repr`. -/
def pyReprEntries : List (String × Json) → String
  | [] => ""
  | [(k, v)] => pyReprStr k ++ ": " ++ pyRepr v
  | (k, v) :: rest => pyReprStr k ++ ": " ++ pyRepr v ++ ", " ++ pyReprEntries rest

end

/-- Python `str(v)`: identity on strings, `repr`-like rendering
otherwise (`None`/`True`/`False`, decimal integers, bracketed
containers). -/
def pyStr (v : Json) : String :=
  match v with
  | .str s => s
  | other => pyRepr other

/-- A validated conversation turn. -/
structure EasyChatMessage where
  role : String
  content : Json

/-- The accepted roles (line 76). -/
def validRoles : List String := ["system", "user", "assistant"]

/-- `EasyChatMessage.__init__` (lines 74-79):

```
role = str(role).strip().lower()
if role not in ['system', 'user', 'assistant']:
    raise ValueError("role must be 'system', 'user' or 'assistant'")
self.role = role
self.content = content
```

The `ValueError` is the spec's `InvalidRole`. -/
def easyChatMessageInit (role content : Json) : Except PyErr EasyChatMessage :=
  let r := pyLower (pyStrip (pyStr role))
  if validRoles.contains r then .ok ⟨r, content⟩
  else .error .valueError

/-! ## Client (`EasyChatClient`, lines 82-230) -/

/-- The client's resolved configuration state (its instance attributes,
lines 83-90).  The wrapped transport object `_open_ai_client` is an external
collaborator and carries no state read by the modelled logic. -/
structure EasyChatClient where
  _open_ai_deployment_name : String
  _open_ai_embedding_deployment_name : String
  _azure_search_api_base : String
  _azure_search_api_key : String
  _azure_search_index_name : String
  _semantic_configuration : String
  _filter : String

/-- `EasyChatClient.__init__` (lines 92-176) after the excluded
Configuration Resolver has produced the resolved field values (explicit
argument / environment variable / default precedence, out of scope per the
spec).  `_filter` is the class-level default `""` (line 90), which
`__init__` never assigns. -/
def mkEasyChatClient (open_ai_deployment_name open_ai_embedding_deployment_name
    azure_search_api_base azure_search_api_key azure_search_index_name
    semantic_configuration : String) : EasyChatClient :=
  { _open_ai_deployment_name := open_ai_deployment_name
    _open_ai_embedding_deployment_name := open_ai_embedding_deployment_name
    _azure_search_api_base := azure_search_api_base
    _azure_search_api_key := azure_search_api_key
    _azure_search_index_name := azure_search_index_name
    _semantic_configuration := semantic_configuration
    _filter := "" }

/-- `setSearchFilter` (lines 178-179): `self._filter = str(filter)`. -/
def EasyChatClient.setSearchFilter (c : EasyChatClient) (filter : Json) :
    EasyChatClient :=
  { c with _filter := pyStr filter }

/-- `getSearchFilter` (lines 180-181). -/
def EasyChatClient.getSearchFilter (c : EasyChatClient) : String :=
  c._filter

/-- The data-source descriptor built inside `chat` (lines 184-215): the
base `parameters` dict, then the authentication assignment (lines 203-212),
then the conditional filter assignment (lines 213-215). -/
def EasyChatClient.buildDataSource (c : EasyChatClient) : Json :=
  let baseParams : List (String × Json) := [
    ("endpoint", .str c._azure_search_api_base),
    ("index_name", .str c._azure_search_index_name),
    ("top_n_documents", .num 5),
    ("role_information", .str "You must generate citation based on the retrieved information."),
    ("fields_mapping", .obj [
      ("filepath_field", .str "chunk_id"),
      ("url_field", .str "metadata_storage_path")]),
    ("embedding_dependency", .obj [
      ("type", .str "deployment_name"),
      ("deployment_name", .str c._open_ai_embedding_deployment_name)]),
    ("query_type", .str "vector_semantic_hybrid"),
    ("semantic_configuration", .str c._semantic_configuration)]
  let auth : Json :=
    if c._azure_search_api_key = "" then
      .obj [("type", .str "system_assigned_managed_identity")]
    else
      .obj [("type", .str "api_key"), ("api_key", .str c._azure_search_api_key)]
  let withAuth := dictSet baseParams "authentication" auth
  let withFilter :=
    if c._filter ≠ "" then dictSet withAuth "filter" (.str c._filter)
    else withAuth
  .obj [("type", .str "azure_search"), ("parameters", .obj withFilter)]

/-- The `parameters` dict of the data-source descriptor. -/
def EasyChatClient.dataSourceParams (c : EasyChatClient) : Json :=
  (jsonLookup c.buildDataSource "parameters").getD .null

/-- `chat` (lines 183-230).  The network round trip is the external
transport; `completion` is the raw response it returned.  The result triple
is: the request-side data the builder contributes (deployment name, the
1:1-translated message list, the data-source descriptor; the fixed float
temperature 0.2 is passed straight to the transport and is not modelled),
the normalized response, and the client state after the call — `chat`
assigns no instance attribute. -/
def EasyChatClient.chat (jsonLoads : String → Option Json)
    (unquote : String → String) (c : EasyChatClient)
    (messages : List EasyChatMessage) (completion : Completion) :
    Json × Except PyErr Json × EasyChatClient :=
  (.obj [
    ("model", .str c._open_ai_deployment_name),
    ("messages", .arr (messages.map fun m =>
      .obj [("role", .str m.role), ("content", m.content)])),
    ("data_sources", .arr [c.buildDataSource])],
   get_json_serializable_data jsonLoads unquote completion,
   c)

/-! ## `dict_to_chat_messages` (lines 233-236) -/

/-- The list comprehension
`[EasyChatMessage(message["role"], message["content"]) for message in msgs]`,
element by element, left to right; the first raised exception
propagates. -/
def buildMessagesList : List Json → Except PyErr (List EasyChatMessage)
  | [] => .ok []
  | m :: rest => do
    let r ← pyGetItem m "role"
    let cnt ← pyGetItem m "content"
    let msg ← easyChatMessageInit r cnt
    let msgs ← buildMessagesList rest
    pure (msg :: msgs)

/-- Iterating `data["messages"]`: a list iterates its elements; a string
iterates its characters and a dict its keys, so any non-empty string or
dict raises `TypeError` at the first `message["role"]` subscript (a `str`
subscripted with a string key); the remaining values are not iterable. -/
def buildMessages : Json → Except PyErr (List EasyChatMessage)
  | .arr xs => buildMessagesList xs
  | .str s =>
    match s.data with
    | [] => .ok []
    | _ :: _ => .error .typeError
  | .obj kvs =>
    match kvs with
    | [] => .ok []
    | _ :: _ => .error .typeError
  | _ => .error .typeError

/-- `dict_to_chat_messages` (lines 233-236):

```
if "messages" in data:
    return [EasyChatMessage(message["role"], message["content"]) for message in data["messages"]]
return []
``` -/
def dict_to_chat_messages (data : List (String × Json)) :
    Except PyErr (List EasyChatMessage) :=
  match dictLookup data "messages" with
  | some msgs => buildMessages msgs
  | none => .ok []

/-! ## Shared lemmas -/

/-- Looking a key up after a dict assignment. -/
theorem dictLookup_dictSet (kvs : List (String × Json)) (k k2 : String) (v : Json) :
    dictLookup (dictSet kvs k v) k2 = if k = k2 then some v else dictLookup kvs k2 := by
  induction kvs with
  | nil => simp [dictLookup, dictSet]
  | cons hd rest ih =>
    obtain ⟨a, b⟩ := hd
    by_cases hak : a = k
    · subst hak
      by_cases h2 : a = k2 <;> simp [dictLookup, dictSet, h2]
    · by_cases h2 : a = k2
      · subst h2
        simp [dictLookup, dictSet, hak, Ne.symm hak]
      · simp [dictLookup, dictSet, hak, h2, ih]

/-- On a dict context the intent stage never raises, returns a dict, and
touches no key other than `"intent"`. -/
theorem processIntent_obj (jl : String → Option Json)
    (kvs : List (String × Json)) :
    ∃ kvs1, processIntent jl (.obj kvs) = .ok (.obj kvs1) ∧
      ∀ k2, k2 ≠ "intent" → dictLookup kvs1 k2 = dictLookup kvs k2 := by
  cases h : dictLookup kvs "intent" with
  | none =>
    exact ⟨kvs, by simp [processIntent, pyIn, h, Bind.bind, Except.bind, pure, Except.pure], fun _ _ => rfl⟩
  | some iv =>
    cases iv with
    | str s =>
      cases hj : jl s with
      | none =>
        exact ⟨kvs, by simp [processIntent, pyIn, pyGetItem, h, hj, Bind.bind, Except.bind, pure, Except.pure], fun _ _ => rfl⟩
      | some v =>
        refine ⟨dictSet kvs "intent" v, by simp [processIntent, pyIn, pyGetItem, jsonSetKey, h, hj, Bind.bind, Except.bind, pure, Except.pure], ?_⟩
        intro k2 hk2
        rw [dictLookup_dictSet]
        simp [Ne.symm hk2]
    | null => exact ⟨kvs, by simp [processIntent, pyIn, pyGetItem, h, Bind.bind, Except.bind, pure, Except.pure], fun _ _ => rfl⟩
    | bool b => exact ⟨kvs, by simp [processIntent, pyIn, pyGetItem, h, Bind.bind, Except.bind, pure, Except.pure], fun _ _ => rfl⟩
    | num n => exact ⟨kvs, by simp [processIntent, pyIn, pyGetItem, h, Bind.bind, Except.bind, pure, Except.pure], fun _ _ => rfl⟩
    | arr xs => exact ⟨kvs, by simp [processIntent, pyIn, pyGetItem, h, Bind.bind, Except.bind, pure, Except.pure], fun _ _ => rfl⟩
    | obj kvs2 => exact ⟨kvs, by simp [processIntent, pyIn, pyGetItem, h, Bind.bind, Except.bind, pure, Except.pure], fun _ _ => rfl⟩

/-- On a dict context the citation stage never raises, returns a dict, and
touches no key other than `"citations"`. -/
theorem processCitations_obj (uq : String → String)
    (kvs : List (String × Json)) :
    ∃ kvs1, processCitations uq (.obj kvs) = .ok (.obj kvs1) ∧
      ∀ k2, k2 ≠ "citations" → dictLookup kvs1 k2 = dictLookup kvs k2 := by
  cases h : dictLookup kvs "citations" with
  | none =>
    exact ⟨kvs, by simp [processCitations, pyIn, h, Bind.bind, Except.bind, pure, Except.pure], fun _ _ => rfl⟩
  | some cv =>
    cases cv with
    | arr cits =>
      refine ⟨dictSet kvs "citations" (.arr (cits.map (processCitation uq))),
        by simp [processCitations, pyIn, pyGetItem, jsonSetKey, h, Bind.bind, Except.bind, pure, Except.pure], ?_⟩
      intro k2 hk2
      rw [dictLookup_dictSet]
      simp [Ne.symm hk2]
    | null => exact ⟨kvs, by simp [processCitations, pyIn, pyGetItem, h, Bind.bind, Except.bind, pure, Except.pure], fun _ _ => rfl⟩
    | bool b => exact ⟨kvs, by simp [processCitations, pyIn, pyGetItem, h, Bind.bind, Except.bind, pure, Except.pure], fun _ _ => rfl⟩
    | num n => exact ⟨kvs, by simp [processCitations, pyIn, pyGetItem, h, Bind.bind, Except.bind, pure, Except.pure], fun _ _ => rfl⟩
    | str s => exact ⟨kvs, by simp [processCitations, pyIn, pyGetItem, h, Bind.bind, Except.bind, pure, Except.pure], fun _ _ => rfl⟩
    | obj kvs2 => exact ⟨kvs, by simp [processCitations, pyIn, pyGetItem, h, Bind.bind, Except.bind, pure, Except.pure], fun _ _ => rfl⟩

/-- On a dict context the whole context pipeline never raises, returns a
dict, and preserves every key other than `"intent"` and `"citations"`. -/
theorem processContext_obj (jl : String → Option Json) (uq : String → String)
    (kvs : List (String × Json)) :
    ∃ kvs2, processContext jl uq (.obj kvs) = .ok (.obj kvs2) ∧
      ∀ k2, k2 ≠ "intent" → k2 ≠ "citations" →
        dictLookup kvs2 k2 = dictLookup kvs k2 := by
  obtain ⟨kvs1, h1, hp1⟩ := processIntent_obj jl kvs
  obtain ⟨kvs2, h2, hp2⟩ := processCitations_obj uq kvs1
  refine ⟨kvs2, by simp [processContext, h1, h2, Bind.bind, Except.bind], ?_⟩
  intro k2 hi hc
  rw [hp2 k2 hc, hp1 k2 hi]

/-- When the citation is a dict with a string filepath, `processCitation`
returns a dict whose `"pages"` entry is the regex result and which agrees
with the input on every key other than `"pages"` and the three storage
keys. -/
theorem processCitation_pages (uq : String → String)
    (kvs : List (String × Json)) (fp : String)
    (hfp : dictLookup kvs "filepath" = some (.str fp)) :
    ∃ kvs1, processCitation uq (.obj kvs) = .obj kvs1 ∧
      dictLookup kvs1 "pages" = some (.arr ((findPages fp).map Json.str)) ∧
      ∀ k2, k2 ≠ "pages" → k2 ≠ "storageaccount_name" →
        k2 ≠ "storageaccount_container" → k2 ≠ "storageaccount_blob" →
        dictLookup kvs1 k2 = dictLookup kvs k2 := by
  have hpg : ∀ k2, k2 ≠ "pages" →
      dictLookup (dictSet kvs "pages" (.arr ((findPages fp).map Json.str))) k2 =
        dictLookup kvs k2 := by
    intro k2 hk2
    rw [dictLookup_dictSet]
    simp [Ne.symm hk2]
  have hpp : dictLookup (dictSet kvs "pages" (.arr ((findPages fp).map Json.str))) "pages" =
      some (.arr ((findPages fp).map Json.str)) := by
    rw [dictLookup_dictSet]
    simp
  simp only [processCitation, hfp]
  cases hurl : dictLookup (dictSet kvs "pages" (.arr ((findPages fp).map Json.str))) "url" with
  | none => exact ⟨_, rfl, hpp, fun k2 h1 _ _ _ => hpg k2 h1⟩
  | some uv =>
    cases uv with
    | str url =>
      simp only []
      by_cases hs : pyStartsWith (pyLower url) "http" = true
      · rw [if_pos hs]
        by_cases hlen : (pySplitChar url '/').length ≥ 4
        · rw [if_pos hlen]
          refine ⟨_, rfl, ?_, ?_⟩
          · rw [dictLookup_dictSet, if_neg (by decide), dictLookup_dictSet,
              if_neg (by decide), dictLookup_dictSet, if_neg (by decide)]
            exact hpp
          · intro k2 h1 h2 h3 h4
            rw [dictLookup_dictSet, if_neg (fun h => h4 h.symm),
              dictLookup_dictSet, if_neg (fun h => h3 h.symm),
              dictLookup_dictSet, if_neg (fun h => h2 h.symm)]
            exact hpg k2 h1
        · rw [if_neg hlen]
          exact ⟨_, rfl, hpp, fun k2 h1 _ _ _ => hpg k2 h1⟩
      · rw [if_neg hs]
        exact ⟨_, rfl, hpp, fun k2 h1 _ _ _ => hpg k2 h1⟩
    | null => exact ⟨_, rfl, hpp, fun k2 h1 _ _ _ => hpg k2 h1⟩
    | bool b => exact ⟨_, rfl, hpp, fun k2 h1 _ _ _ => hpg k2 h1⟩
    | num n => exact ⟨_, rfl, hpp, fun k2 h1 _ _ _ => hpg k2 h1⟩
    | arr xs => exact ⟨_, rfl, hpp, fun k2 h1 _ _ _ => hpg k2 h1⟩
    | obj kvs2 => exact ⟨_, rfl, hpp, fun k2 h1 _ _ _ => hpg k2 h1⟩

/-- When the citation is a dict with a string filepath and a string url
that splits into fewer than 4 `/`-segments, `processCitation` only sets
`"pages"`. -/
theorem processCitation_short_url (uq : String → String)
    (kvs : List (String × Json)) (fp url : String)
    (hfp : dictLookup kvs "filepath" = some (.str fp))
    (hurl : dictLookup kvs "url" = some (.str url))
    (hlt : (pySplitChar url '/').length < 4) :
    processCitation uq (.obj kvs) =
      .obj (dictSet kvs "pages" (.arr ((findPages fp).map Json.str))) := by
  have hurl2 : dictLookup (dictSet kvs "pages" (.arr ((findPages fp).map Json.str))) "url" =
      some (.str url) := by
    rw [dictLookup_dictSet]
    simpa using hurl
  simp only [processCitation, hfp, hurl2]
  by_cases hs : pyStartsWith (pyLower url) "http" = true
  · rw [if_pos hs, if_neg (by omega)]
  · rw [if_neg hs]

/-- When the citation is a dict with a string filepath and a string url that
starts with `http` (after lowercasing) and splits into at least 4
`/`-segments, `processCitation` performs the four assignments of the source
in order. -/
theorem processCitation_storage (uq : String → String)
    (kvs : List (String × Json)) (fp url : String)
    (hfp : dictLookup kvs "filepath" = some (.str fp))
    (hurl : dictLookup kvs "url" = some (.str url))
    (hs : pyStartsWith (pyLower url) "http" = true)
    (hlen : (pySplitChar url '/').length ≥ 4) :
    processCitation uq (.obj kvs) =
      .obj (dictSet (dictSet (dictSet
        (dictSet kvs "pages" (.arr ((findPages fp).map Json.str)))
        "storageaccount_name"
          (.str ((pySplitChar ((pySplitChar url '/').getD 2 "") '.').headD "")))
        "storageaccount_container" (.str ((pySplitChar url '/').getD 3 "")))
        "storageaccount_blob"
          (.str (uq ((pySplitChar ((pySplitChar (pyJoin "/"
            ((pySplitChar url '/').drop 4)) '?').headD "") '#').headD "")))) := by
  have hurl2 : dictLookup (dictSet kvs "pages" (.arr ((findPages fp).map Json.str))) "url" =
      some (.str url) := by
    rw [dictLookup_dictSet]
    simpa using hurl
  simp only [processCitation, hfp, hurl2]
  rw [if_pos hs, if_pos hlen]

/-! ## Claim theorems -/

/-- Claim C4: `EasyChatMessage` construction succeeds exactly when the role
string, after trimming surrounding whitespace and lowercasing, equals one of
`"system"`, `"user"`, `"assistant"`; on success the stored role is the
canonical lowercase value and the content is stored unchanged; for every
other role string construction fails with the `InvalidRole` error
(`ValueError`). -/
theorem easyChatMessage_role_validation (role : String) (content : Json) :
    (pyLower (pyStrip role) = "system" ∨ pyLower (pyStrip role) = "user" ∨
        pyLower (pyStrip role) = "assistant" →
      easyChatMessageInit (.str role) content =
        .ok ⟨pyLower (pyStrip role), content⟩) ∧
    (¬(pyLower (pyStrip role) = "system" ∨ pyLower (pyStrip role) = "user" ∨
        pyLower (pyStrip role) = "assistant") →
      easyChatMessageInit (.str role) content = .error .valueError) := by
  have hc : (validRoles.contains (pyLower (pyStrip role)) = true) ↔
      (pyLower (pyStrip role) = "system" ∨ pyLower (pyStrip role) = "user" ∨
        pyLower (pyStrip role) = "assistant") := by
    simp [validRoles, List.contains_cons]
  constructor <;> intro h
  · simp only [easyChatMessageInit, pyStr]
    rw [if_pos (hc.mpr h)]
  · simp only [easyChatMessageInit, pyStr]
    rw [if_neg (fun hcon => h (hc.mp hcon))]

/-- Witness for C4 at a concrete role with whitespace and mixed case. -/
theorem easyChatMessage_role_validation_witness :
    (pyLower (pyStrip "  ASSISTANT ") = "system" ∨
      pyLower (pyStrip "  ASSISTANT ") = "user" ∨
      pyLower (pyStrip "  ASSISTANT ") = "assistant") ∧
    easyChatMessageInit (.str "  ASSISTANT ") (.str "hello") =
      .ok ⟨"assistant", .str "hello"⟩ :=
  ⟨by decide,
   (easyChatMessage_role_validation "  ASSISTANT " (.str "hello")).1 (by decide)⟩

/-- Claim C5: the data-source descriptor's authentication block is
`{type: system_assigned_managed_identity}` when the resolved search
credential is the empty string and `{type: api_key, api_key: <credential>}`
for every non-empty credential; exactly one of the two (distinct) forms is
always present. -/
theorem dataSource_authentication_block (c : EasyChatClient) :
    (c._azure_search_api_key = "" →
      jsonLookup c.dataSourceParams "authentication" =
        some (.obj [("type", .str "system_assigned_managed_identity")])) ∧
    (c._azure_search_api_key ≠ "" →
      jsonLookup c.dataSourceParams "authentication" =
        some (.obj [("type", .str "api_key"),
                    ("api_key", .str c._azure_search_api_key)])) ∧
    (Json.obj [("type", .str "system_assigned_managed_identity")] ≠
      Json.obj [("type", .str "api_key"),
                ("api_key", .str c._azure_search_api_key)]) := by
  refine ⟨fun hk => ?_, fun hk => ?_, by simp⟩
  · by_cases hf : c._filter = "" <;>
      simp [EasyChatClient.dataSourceParams, EasyChatClient.buildDataSource,
        jsonLookup, jsonSetKey, hk, hf, dictSet, dictLookup]
  · by_cases hf : c._filter = "" <;>
      simp [EasyChatClient.dataSourceParams, EasyChatClient.buildDataSource,
        jsonLookup, jsonSetKey, hk, hf, dictSet, dictLookup]

/-- Witness for C5: both authentication variants at concrete clients. -/
theorem dataSource_authentication_block_witness :
    (mkEasyChatClient "gpt-4o" "emb" "sb" "" "documents" "sc")._azure_search_api_key = "" ∧
    jsonLookup (EasyChatClient.dataSourceParams
        (mkEasyChatClient "gpt-4o" "emb" "sb" "" "documents" "sc")) "authentication" =
      some (.obj [("type", .str "system_assigned_managed_identity")]) ∧
    jsonLookup (EasyChatClient.dataSourceParams
        (mkEasyChatClient "gpt-4o" "emb" "sb" "secret-key" "documents" "sc")) "authentication" =
      some (.obj [("type", .str "api_key"), ("api_key", .str "secret-key")]) :=
  ⟨rfl,
   (dataSource_authentication_block
     (mkEasyChatClient "gpt-4o" "emb" "sb" "" "documents" "sc")).1 rfl,
   (dataSource_authentication_block
     (mkEasyChatClient "gpt-4o" "emb" "sb" "secret-key" "documents" "sc")).2.1
     (by decide)⟩

/-- Claim C6: the data-source descriptor's `filter` key is absent whenever
the current search filter is the empty string, and present and equal to the
filter string whenever it is non-empty. -/
theorem dataSource_filter_key (c : EasyChatClient) :
    (c._filter = "" → jsonLookup c.dataSourceParams "filter" = none) ∧
    (c._filter ≠ "" →
      jsonLookup c.dataSourceParams "filter" = some (.str c._filter)) := by
  refine ⟨fun hf => ?_, fun hf => ?_⟩
  · by_cases hk : c._azure_search_api_key = "" <;>
      simp [EasyChatClient.dataSourceParams, EasyChatClient.buildDataSource,
        jsonLookup, jsonSetKey, hk, hf, dictSet, dictLookup]
  · by_cases hk : c._azure_search_api_key = "" <;>
      simp [EasyChatClient.dataSourceParams, EasyChatClient.buildDataSource,
        jsonLookup, jsonSetKey, hk, hf, dictSet, dictLookup]

/-- Witness for C6: filter absent on a fresh client, present after
`setSearchFilter`. -/
theorem dataSource_filter_key_witness :
    (mkEasyChatClient "d" "e" "sb" "" "idx" "sc")._filter = "" ∧
    jsonLookup (EasyChatClient.dataSourceParams
      (mkEasyChatClient "d" "e" "sb" "" "idx" "sc")) "filter" = none ∧
    ((mkEasyChatClient "d" "e" "sb" "" "idx" "sc").setSearchFilter
      (.str "year eq 2024"))._filter ≠ "" ∧
    jsonLookup (EasyChatClient.dataSourceParams
      ((mkEasyChatClient "d" "e" "sb" "" "idx" "sc").setSearchFilter
        (.str "year eq 2024"))) "filter" = some (.str "year eq 2024") :=
  ⟨rfl,
   (dataSource_filter_key (mkEasyChatClient "d" "e" "sb" "" "idx" "sc")).1 rfl,
   by decide,
   (dataSource_filter_key ((mkEasyChatClient "d" "e" "sb" "" "idx" "sc").setSearchFilter
     (.str "year eq 2024"))).2 (by decide)⟩

/-- Claim C10: `setSearchFilter(v)` followed by `getSearchFilter()` returns
`str(v)` (non-strings are coerced, a string argument is returned as-is); a
freshly constructed client's filter is `""`; `chat` leaves the stored filter
(indeed the whole client state) unchanged. -/
theorem searchFilter_state (c : EasyChatClient) (v : Json) (s : String)
    (jl : String → Option Json) (uq : String → String)
    (msgs : List EasyChatMessage) (completion : Completion)
    (d e sb sk idx sc : String) :
    (c.setSearchFilter v).getSearchFilter = pyStr v ∧
    (c.setSearchFilter (.str s)).getSearchFilter = s ∧
    (mkEasyChatClient d e sb sk idx sc).getSearchFilter = "" ∧
    (EasyChatClient.chat jl uq c msgs completion).2.2 = c :=
  ⟨rfl, rfl, rfl, rfl⟩

/-- Claim C7: for every citation whose filepath is a string, the normalizer
sets the citation's `pages` field to the ordered list of digit-strings
matched by `_pages_(\\d+)` in the filepath (`findPages`); in particular
`"doc_pages_3_pages_17.pdf"` yields `["3", "17"]` and a filepath with no
match yields `[]`. -/
theorem citation_pages_extraction :
    (∀ (uq : String → String) (cit : Json) (fp : String),
      jsonLookup cit "filepath" = some (.str fp) →
      jsonLookup (processCitation uq cit) "pages" =
        some (.arr ((findPages fp).map Json.str))) ∧
    findPages "doc_pages_3_pages_17.pdf" = ["3", "17"] ∧
    findPages "doc.pdf" = [] := by
  refine ⟨?_, by decide, by decide⟩
  intro uq cit fp hfp
  cases cit with
  | null => simp [jsonLookup] at hfp
  | bool b => simp [jsonLookup] at hfp
  | num n => simp [jsonLookup] at hfp
  | str s => simp [jsonLookup] at hfp
  | arr xs => simp [jsonLookup] at hfp
  | obj kvs =>
    obtain ⟨kvs1, heq, hpp, _⟩ :=
      processCitation_pages uq kvs fp (by simpa [jsonLookup] using hfp)
    rw [heq]
    simpa [jsonLookup] using hpp

/-- Witness for C7 at the spec's example filepath. -/
theorem citation_pages_extraction_witness :
    jsonLookup (Json.obj [("filepath", Json.str "doc_pages_3_pages_17.pdf")])
      "filepath" = some (.str "doc_pages_3_pages_17.pdf") ∧
    jsonLookup (processCitation unquoteAsciiOnly
      (.obj [("filepath", .str "doc_pages_3_pages_17.pdf")])) "pages" =
      some (.arr [.str "3", .str "17"]) :=
  ⟨rfl, citation_pages_extraction.1 unquoteAsciiOnly
    (.obj [("filepath", .str "doc_pages_3_pages_17.pdf")])
    "doc_pages_3_pages_17.pdf" rfl⟩

/-- Counterexample to claim C1 as stated: the claim says that for a
citation whose url is `"https://short.com/"` no storage fields are added,
but that url splits on `/` into exactly 4 segments
(`["https:", "", "short.com", ""]`), so for a citation that also carries a
string filepath the source *does* add all three storage fields, with
account name `"short"`, container `""` and blob `""`. -/
theorem citation_storage_counterexample :
    jsonLookup (processCitation unquoteAsciiOnly
      (.obj [("filepath", .str "doc.pdf"), ("url", .str "https://short.com/")]))
      "storageaccount_name" = some (.str "short") ∧
    jsonLookup (processCitation unquoteAsciiOnly
      (.obj [("filepath", .str "doc.pdf"), ("url", .str "https://short.com/")]))
      "storageaccount_container" = some (.str "") ∧
    jsonLookup (processCitation unquoteAsciiOnly
      (.obj [("filepath", .str "doc.pdf"), ("url", .str "https://short.com/")]))
      "storageaccount_blob" = some (.str "") ∧
    (pySplitChar "https://short.com/" '/').length = 4 :=
  ⟨rfl, rfl, rfl, rfl⟩

/-- Claim C1 (amended): for every citation whose url starts with `http`
(case-insensitively) but splits on `/` into fewer than 4 segments, no
storage fields are added; the url `"https://short.com/"` however splits
into exactly 4 segments, so a citation carrying it together with a string
filepath receives `storageaccount_name == "short"`,
`storageaccount_container == ""` and `storageaccount_blob == unquote ""`;
and for `"https://myaccount.blob.core.windows.net/mycontainer/a%20b/c.txt?sv=1"`
the derived fields are `"myaccount"`, `"mycontainer"` and `"a b/c.txt"`. -/
theorem citation_storage_parsing (uq : String → String) :
    (∀ (cit : Json) (url : String),
      jsonLookup cit "url" = some (.str url) →
      pyStartsWith (pyLower url) "http" = true →
      (pySplitChar url '/').length < 4 →
      jsonLookup (processCitation uq cit) "storageaccount_name" =
          jsonLookup cit "storageaccount_name" ∧
        jsonLookup (processCitation uq cit) "storageaccount_container" =
          jsonLookup cit "storageaccount_container" ∧
        jsonLookup (processCitation uq cit) "storageaccount_blob" =
          jsonLookup cit "storageaccount_blob") ∧
    (∀ fp : String,
      jsonLookup (processCitation uq
          (.obj [("filepath", .str fp), ("url", .str "https://short.com/")]))
          "storageaccount_name" = some (.str "short") ∧
        jsonLookup (processCitation uq
          (.obj [("filepath", .str fp), ("url", .str "https://short.com/")]))
          "storageaccount_container" = some (.str "") ∧
        jsonLookup (processCitation uq
          (.obj [("filepath", .str fp), ("url", .str "https://short.com/")]))
          "storageaccount_blob" = some (.str (uq ""))) ∧
    (uq "a%20b/c.txt" = "a b/c.txt" →
      processCitation uq (.obj [("filepath", .str "x.pdf"),
        ("url", .str "https://myaccount.blob.core.windows.net/mycontainer/a%20b/c.txt?sv=1")]) =
      .obj [("filepath", .str "x.pdf"),
        ("url", .str "https://myaccount.blob.core.windows.net/mycontainer/a%20b/c.txt?sv=1"),
        ("pages", .arr []),
        ("storageaccount_name", .str "myaccount"),
        ("storageaccount_container", .str "mycontainer"),
        ("storageaccount_blob", .str "a b/c.txt")]) := by
  refine ⟨?_, ?_, ?_⟩
  · intro cit url hurl hs hlt
    cases cit with
    | null => simp [jsonLookup] at hurl
    | bool b => simp [jsonLookup] at hurl
    | num n => simp [jsonLookup] at hurl
    | str s => simp [jsonLookup] at hurl
    | arr xs => simp [jsonLookup] at hurl
    | obj kvs =>
      simp only [jsonLookup] at hurl
      cases hfp : dictLookup kvs "filepath" with
      | none =>
        have h : processCitation uq (.obj kvs) = .obj kvs := by
          simp only [processCitation, hfp]
        rw [h]
        exact ⟨rfl, rfl, rfl⟩
      | some fv =>
        cases fv with
        | str fp =>
          rw [processCitation_short_url uq kvs fp url hfp hurl hlt]
          refine ⟨?_, ?_, ?_⟩ <;>
            · simp only [jsonLookup]
              rw [dictLookup_dictSet, if_neg (by decide)]
        | null =>
          have h : processCitation uq (.obj kvs) = .obj kvs := by
            simp only [processCitation, hfp]
          rw [h]
          exact ⟨rfl, rfl, rfl⟩
        | bool b2 =>
          have h : processCitation uq (.obj kvs) = .obj kvs := by
            simp only [processCitation, hfp]
          rw [h]
          exact ⟨rfl, rfl, rfl⟩
        | num n2 =>
          have h : processCitation uq (.obj kvs) = .obj kvs := by
            simp only [processCitation, hfp]
          rw [h]
          exact ⟨rfl, rfl, rfl⟩
        | arr xs2 =>
          have h : processCitation uq (.obj kvs) = .obj kvs := by
            simp only [processCitation, hfp]
          rw [h]
          exact ⟨rfl, rfl, rfl⟩
        | obj kvs2 =>
          have h : processCitation uq (.obj kvs) = .obj kvs := by
            simp only [processCitation, hfp]
          rw [h]
          exact ⟨rfl, rfl, rfl⟩
  · intro fp
    have h := processCitation_storage uq
      [("filepath", .str fp), ("url", .str "https://short.com/")]
      fp "https://short.com/" rfl rfl (by decide) (by decide)
    rw [h]
    exact ⟨rfl, rfl, rfl⟩
  · intro hq
    have h := processCitation_storage uq
      [("filepath", .str "x.pdf"),
       ("url", .str "https://myaccount.blob.core.windows.net/mycontainer/a%20b/c.txt?sv=1")]
      "x.pdf" "https://myaccount.blob.core.windows.net/mycontainer/a%20b/c.txt?sv=1"
      rfl rfl (by decide) (by decide)
    rw [h]
    have harg : (pySplitChar ((pySplitChar (pyJoin "/"
        ((pySplitChar "https://myaccount.blob.core.windows.net/mycontainer/a%20b/c.txt?sv=1" '/').drop 4))
        '?').headD "") '#').headD "" = "a%20b/c.txt" := rfl
    rw [harg, hq]
    rfl

/-- Witness for C1: a 3-segment url leaves an existing storage field
untouched, and the myaccount example instantiated with the concrete
`unquote`. -/
theorem citation_storage_parsing_witness :
    jsonLookup (Json.obj [("filepath", Json.str "d.pdf"),
        ("url", Json.str "https://x.com"),
        ("storageaccount_name", Json.str "keep")]) "url" =
      some (.str "https://x.com") ∧
    pyStartsWith (pyLower "https://x.com") "http" = true ∧
    (pySplitChar "https://x.com" '/').length < 4 ∧
    jsonLookup (processCitation unquoteAsciiOnly
      (.obj [("filepath", .str "d.pdf"), ("url", .str "https://x.com"),
             ("storageaccount_name", .str "keep")])) "storageaccount_name" =
      some (.str "keep") ∧
    unquoteAsciiOnly "a%20b/c.txt" = "a b/c.txt" ∧
    processCitation unquoteAsciiOnly (.obj [("filepath", .str "x.pdf"),
      ("url", .str "https://myaccount.blob.core.windows.net/mycontainer/a%20b/c.txt?sv=1")]) =
      .obj [("filepath", .str "x.pdf"),
        ("url", .str "https://myaccount.blob.core.windows.net/mycontainer/a%20b/c.txt?sv=1"),
        ("pages", .arr []),
        ("storageaccount_name", .str "myaccount"),
        ("storageaccount_container", .str "mycontainer"),
        ("storageaccount_blob", .str "a b/c.txt")] :=
  ⟨rfl, rfl, by decide,
   ((citation_storage_parsing unquoteAsciiOnly).1
     (.obj [("filepath", .str "d.pdf"), ("url", .str "https://x.com"),
            ("storageaccount_name", .str "keep")])
     "https://x.com" rfl rfl (by decide)).1.trans rfl,
   rfl,
   (citation_storage_parsing unquoteAsciiOnly).2.2 rfl⟩

/-- Counterexample to claim C3 as stated: the claim says that when page
extraction fails (filepath missing) the storage derivation from the url is
still attempted and can still succeed; but the whole citation body is one
`try` block, so for a citation with no filepath and a perfectly good
4-segment storage url, nothing at all is derived. -/
theorem citation_failure_containment_counterexample :
    processCitation unquoteAsciiOnly
      (.obj [("url", .str "https://myaccount.blob.core.windows.net/mycontainer/blob.txt")]) =
      .obj [("url", .str "https://myaccount.blob.core.windows.net/mycontainer/blob.txt")] ∧
    jsonLookup (processCitation unquoteAsciiOnly
      (.obj [("url", .str "https://myaccount.blob.core.windows.net/mycontainer/blob.txt")]))
      "storageaccount_name" = none ∧
    (pySplitChar "https://myaccount.blob.core.windows.net/mycontainer/blob.txt" '/').length ≥ 4 :=
  ⟨rfl, rfl, by decide⟩

/-- Claim C3 (amended): failures inside a citation are swallowed per
citation, not per field.  If page extraction fails (missing filepath), the
url-derived storage step is skipped entirely — the citation is returned
unchanged; in the other direction, if the url step fails (missing url), the
already-performed `pages` assignment persists. -/
theorem citation_failure_containment (uq : String → String) :
    (∀ kvs : List (String × Json), dictLookup kvs "filepath" = none →
      processCitation uq (.obj kvs) = .obj kvs) ∧
    (∀ (kvs : List (String × Json)) (fp : String),
      dictLookup kvs "filepath" = some (.str fp) →
      dictLookup kvs "url" = none →
      processCitation uq (.obj kvs) =
        .obj (dictSet kvs "pages" (.arr ((findPages fp).map Json.str)))) := by
  constructor
  · intro kvs hfp
    simp only [processCitation, hfp]
  · intro kvs fp hfp hurl
    have hurl2 : dictLookup (dictSet kvs "pages"
        (.arr ((findPages fp).map Json.str))) "url" = none := by
      rw [dictLookup_dictSet]
      simpa using hurl
    simp only [processCitation, hfp, hurl2]

/-- Witness for C3 at concrete citations. -/
theorem citation_failure_containment_witness :
    dictLookup [("url", Json.str "https://a.b/c/d")] "filepath" = none ∧
    processCitation unquoteAsciiOnly (.obj [("url", .str "https://a.b/c/d")]) =
      .obj [("url", .str "https://a.b/c/d")] ∧
    processCitation unquoteAsciiOnly (.obj [("filepath", .str "doc_pages_7.pdf")]) =
      .obj [("filepath", .str "doc_pages_7.pdf"), ("pages", .arr [.str "7"])] :=
  ⟨rfl,
   (citation_failure_containment unquoteAsciiOnly).1 _ rfl,
   (citation_failure_containment unquoteAsciiOnly).2 _ "doc_pages_7.pdf" rfl rfl⟩

/-- When every choice carries a dict message context, the choice loop
returns normally. -/
theorem normChoices_ok (jl : String → Option Json) (uq : String → String)
    (chs : List Choice)
    (h : chs.all (fun ch => isJsonObj ch.message.context) = true) :
    ∃ cs, normChoices jl uq chs = .ok cs := by
  induction chs with
  | nil => exact ⟨[], rfl⟩
  | cons ch rest ih =>
    simp only [List.all_cons, Bool.and_eq_true] at h
    obtain ⟨h1, h2⟩ := h
    have hobj : ∃ kvs, ch.message.context = .obj kvs := by
      cases hc : ch.message.context with
      | obj kvs => exact ⟨kvs, rfl⟩
      | null => rw [hc] at h1; simp [isJsonObj] at h1
      | bool b => rw [hc] at h1; simp [isJsonObj] at h1
      | num n => rw [hc] at h1; simp [isJsonObj] at h1
      | str s => rw [hc] at h1; simp [isJsonObj] at h1
      | arr xs => rw [hc] at h1; simp [isJsonObj] at h1
    obtain ⟨kvs, hkvs⟩ := hobj
    obtain ⟨kvs2, hpc, _⟩ := processContext_obj jl uq kvs
    obtain ⟨cs, hcs⟩ := ih h2
    refine ⟨Json.obj [("finish_reason", ch.finish_reason), ("index", ch.index),
      ("message", .obj [("refusal", ch.message.refusal), ("role", ch.message.role),
        ("content", ch.message.content), ("end_turn", ch.message.end_turn),
        ("context", .obj kvs2)])] :: cs, ?_⟩
    simp [normChoices, normChoice, hkvs, hpc, hcs,
      Bind.bind, Except.bind, pure, Except.pure]

/-- Counterexample to claim C2 as stated: the normalizer is not a total
function — for a completion whose single choice has context `None`, the
membership test `"intent" in context` (line 50, outside any `try`) raises
an uncaught `TypeError`. -/
theorem normalizer_totality_counterexample :
    get_json_serializable_data jsonLoadsNone unquoteAsciiOnly
      { choices := [{ finish_reason := .str "stop", index := .num 0,
                      message := { refusal := .null, role := .str "assistant",
                                   content := .str "Hello", end_turn := .null,
                                   context := .null } }],
        created := .num 1700000000, id := .str "chatcmpl-1",
        model := .str "gpt-4o", object := .str "chat.completion",
        system_fingerprint := .null,
        usage := { completion_tokens := .num 1, prompt_tokens := .num 2,
                   total_tokens := .num 3 } } = .error .typeError := rfl

/-- Claim C2 (amended): the normalizer returns a normalized structure — for
any `json.loads`/`unquote` behaviour — for every raw completion whose
choices all carry a dict message context; within that domain citations may
lack filepath or url fields and the intent may be malformed.  It is not
total in general: for a choice whose message context is null, the
membership test `"intent" in context` on line 50 runs outside any `try`
and raises an uncaught `TypeError` to the caller. -/
theorem normalizer_total_on_dict_contexts (jl : String → Option Json)
    (uq : String → String) (completion : Completion)
    (h : completion.choices.all (fun ch => isJsonObj ch.message.context) = true) :
    exceptIsOk (get_json_serializable_data jl uq completion) = true := by
  obtain ⟨cs, hcs⟩ := normChoices_ok jl uq completion.choices h
  simp [get_json_serializable_data, hcs, exceptIsOk,
    Bind.bind, Except.bind, pure, Except.pure]

/-- Witness for C2 on a completion whose context is a dict with a
malformed intent and a citation lacking both filepath and url. -/
theorem normalizer_total_on_dict_contexts_witness :
    ([{ finish_reason := .str "stop", index := .num 0,
        message := { refusal := .null, role := .str "assistant",
                     content := .str "Hello", end_turn := .null,
                     context := .obj [("intent", .str "not json"),
                       ("citations", .arr [.obj [("title", .str "t")]])] } }] :
      List Choice).all (fun ch => isJsonObj ch.message.context) = true ∧
    exceptIsOk (get_json_serializable_data jsonLoadsNone unquoteAsciiOnly
      { choices := [{ finish_reason := .str "stop", index := .num 0,
                      message := { refusal := .null, role := .str "assistant",
                                   content := .str "Hello", end_turn := .null,
                                   context := .obj [("intent", .str "not json"),
                                     ("citations", .arr [.obj [("title", .str "t")]])] } }],
        created := .num 1700000000, id := .str "chatcmpl-1",
        model := .str "gpt-4o", object := .str "chat.completion",
        system_fingerprint := .null,
        usage := { completion_tokens := .num 1, prompt_tokens := .num 2,
                   total_tokens := .num 3 } }) = true :=
  ⟨rfl, normalizer_total_on_dict_contexts jsonLoadsNone unquoteAsciiOnly _ rfl⟩

/-- Claim C8: for every (dict) choice context whose `intent` field holds a
string: if `json.loads` succeeds, the field is replaced by the parsed
structure; if it fails, the original string is left in place; an intent that
is not a string is never touched.  No error escapes in any of these
cases. -/
theorem intent_parsing (jl : String → Option Json) (uq : String → String) :
    (∀ (kvs : List (String × Json)) (s : String) (v : Json),
      dictLookup kvs "intent" = some (.str s) → jl s = some v →
      ∃ kvs2, processContext jl uq (.obj kvs) = .ok (.obj kvs2) ∧
        dictLookup kvs2 "intent" = some v) ∧
    (∀ (kvs : List (String × Json)) (s : String),
      dictLookup kvs "intent" = some (.str s) → jl s = none →
      ∃ kvs2, processContext jl uq (.obj kvs) = .ok (.obj kvs2) ∧
        dictLookup kvs2 "intent" = some (.str s)) ∧
    (∀ (kvs : List (String × Json)) (v : Json),
      dictLookup kvs "intent" = some v → isJsonStr v = false →
      ∃ kvs2, processContext jl uq (.obj kvs) = .ok (.obj kvs2) ∧
        dictLookup kvs2 "intent" = some v) := by
  refine ⟨?_, ?_, ?_⟩
  · intro kvs s v h hj
    have hi : processIntent jl (.obj kvs) = .ok (.obj (dictSet kvs "intent" v)) := by
      simp [processIntent, pyIn, pyGetItem, jsonSetKey, h, hj,
        Bind.bind, Except.bind, pure, Except.pure]
    obtain ⟨kvs2, hc, hpres⟩ := processCitations_obj uq (dictSet kvs "intent" v)
    refine ⟨kvs2, by simp [processContext, hi, hc, Bind.bind, Except.bind], ?_⟩
    rw [hpres "intent" (by decide), dictLookup_dictSet]
    simp
  · intro kvs s h hj
    have hi : processIntent jl (.obj kvs) = .ok (.obj kvs) := by
      simp [processIntent, pyIn, pyGetItem, h, hj,
        Bind.bind, Except.bind, pure, Except.pure]
    obtain ⟨kvs2, hc, hpres⟩ := processCitations_obj uq kvs
    refine ⟨kvs2, by simp [processContext, hi, hc, Bind.bind, Except.bind], ?_⟩
    rw [hpres "intent" (by decide)]
    exact h
  · intro kvs v h hstr
    have hi : processIntent jl (.obj kvs) = .ok (.obj kvs) := by
      cases v with
      | str s => simp [isJsonStr] at hstr
      | null => simp [processIntent, pyIn, pyGetItem, h,
          Bind.bind, Except.bind, pure, Except.pure]
      | bool b => simp [processIntent, pyIn, pyGetItem, h,
          Bind.bind, Except.bind, pure, Except.pure]
      | num n => simp [processIntent, pyIn, pyGetItem, h,
          Bind.bind, Except.bind, pure, Except.pure]
      | arr xs => simp [processIntent, pyIn, pyGetItem, h,
          Bind.bind, Except.bind, pure, Except.pure]
      | obj kvs0 => simp [processIntent, pyIn, pyGetItem, h,
          Bind.bind, Except.bind, pure, Except.pure]
    obtain ⟨kvs2, hc, hpres⟩ := processCitations_obj uq kvs
    refine ⟨kvs2, by simp [processContext, hi, hc, Bind.bind, Except.bind], ?_⟩
    rw [hpres "intent" (by decide)]
    exact h

/-- Witness for C8: the spec's two intent examples, with a `json.loads`
instance that parses `{"a":1}`, and a non-string intent left alone. -/
theorem intent_parsing_witness :
    jsonLoadsA1 "\x7b\"a\":1\x7d" = some (.obj [("a", .num 1)]) ∧
    (∃ kvs2, processContext jsonLoadsA1 unquoteAsciiOnly
        (.obj [("intent", .str "\x7b\"a\":1\x7d")]) = .ok (.obj kvs2) ∧
      dictLookup kvs2 "intent" = some (.obj [("a", .num 1)])) ∧
    (∃ kvs2, processContext jsonLoadsNone unquoteAsciiOnly
        (.obj [("intent", .str "not json")]) = .ok (.obj kvs2) ∧
      dictLookup kvs2 "intent" = some (.str "not json")) ∧
    (∃ kvs2, processContext jsonLoadsNone unquoteAsciiOnly
        (.obj [("intent", .num 7)]) = .ok (.obj kvs2) ∧
      dictLookup kvs2 "intent" = some (.num 7)) :=
  ⟨rfl,
   (intent_parsing jsonLoadsA1 unquoteAsciiOnly).1
     [("intent", .str "\x7b\"a\":1\x7d")] "\x7b\"a\":1\x7d"
     (.obj [("a", .num 1)]) rfl rfl,
   (intent_parsing jsonLoadsNone unquoteAsciiOnly).2.1
     [("intent", .str "not json")] "not json" rfl rfl,
   (intent_parsing jsonLoadsNone unquoteAsciiOnly).2.2
     [("intent", .num 7)] (.num 7) rfl rfl⟩

/-- The list comprehension over well-formed `{role, content}` entries: if
every (trimmed, lowercased) role is valid the result is the 1:1 message
list in order; otherwise the construction raises `ValueError`
(`InvalidRole`). -/
theorem buildMessagesList_spec (xs : List Json)
    (h : xs.all (fun m => isJsonObj m &&
      ((jsonLookup m "role").isSome && (jsonLookup m "content").isSome)) = true) :
    buildMessagesList xs =
      if xs.all (fun m => validRoles.contains
          (pyLower (pyStrip (pyStr ((jsonLookup m "role").getD .null))))) = true then
        .ok (xs.map fun m =>
          ⟨pyLower (pyStrip (pyStr ((jsonLookup m "role").getD .null))),
           (jsonLookup m "content").getD .null⟩)
      else .error .valueError := by
  induction xs with
  | nil => simp [buildMessagesList]
  | cons m rest ih =>
    simp only [List.all_cons, Bool.and_eq_true] at h
    obtain ⟨⟨hobj, hrole, hcont⟩, hrest⟩ := h
    have hm : ∃ kvs, m = .obj kvs := by
      cases m with
      | obj kvs => exact ⟨kvs, rfl⟩
      | null => simp [isJsonObj] at hobj
      | bool b => simp [isJsonObj] at hobj
      | num n => simp [isJsonObj] at hobj
      | str s => simp [isJsonObj] at hobj
      | arr ys => simp [isJsonObj] at hobj
    obtain ⟨kvs, rfl⟩ := hm
    simp only [jsonLookup] at hrole hcont
    obtain ⟨r, hr⟩ := Option.isSome_iff_exists.mp hrole
    obtain ⟨cnt, hcnt⟩ := Option.isSome_iff_exists.mp hcont
    by_cases hv : validRoles.contains (pyLower (pyStrip (pyStr r))) = true
    · simp only [buildMessagesList, pyGetItem, hr, hcnt, easyChatMessageInit,
        if_pos hv, ih hrest, Bind.bind, Except.bind, pure, Except.pure]
      by_cases hall : rest.all (fun m => validRoles.contains
          (pyLower (pyStrip (pyStr ((jsonLookup m "role").getD .null))))) = true
      · rw [if_pos hall, if_pos ?hcondp]
        case hcondp =>
          rw [List.all_cons, Bool.and_eq_true]
          constructor
          · simpa only [jsonLookup, hr, Option.getD_some] using hv
          · exact hall
        simp [jsonLookup, hr, hcnt]
      · rw [if_neg hall, if_neg ?hcondn]
        case hcondn =>
          intro hcon
          rw [List.all_cons, Bool.and_eq_true] at hcon
          exact hall hcon.2
    · simp only [buildMessagesList, pyGetItem, hr, hcnt, easyChatMessageInit,
        if_neg hv, Bind.bind, Except.bind, pure, Except.pure]
      rw [if_neg ?hcondn2]
      case hcondn2 =>
        intro hcon
        rw [List.all_cons, Bool.and_eq_true] at hcon
        exact hv (by simpa only [jsonLookup, hr, Option.getD_some] using hcon.1)

/-- Claim C9: `dict_to_chat_messages` returns `[]` for every input mapping
lacking a `"messages"` key; otherwise (on a list of entries that are dicts
carrying `role` and `content`) it returns the `EasyChatMessage` list built
one-to-one, in order, from each entry's role and content, failing with
`InvalidRole` (`ValueError`) exactly when some entry's role is invalid. -/
theorem dict_to_chat_messages_spec (data : List (String × Json)) (xs : List Json) :
    (dictLookup data "messages" = none → dict_to_chat_messages data = .ok []) ∧
    (dictLookup data "messages" = some (.arr xs) →
      xs.all (fun m => isJsonObj m &&
        ((jsonLookup m "role").isSome && (jsonLookup m "content").isSome)) = true →
      dict_to_chat_messages data =
        if xs.all (fun m => validRoles.contains
            (pyLower (pyStrip (pyStr ((jsonLookup m "role").getD .null))))) = true then
          .ok (xs.map fun m =>
            ⟨pyLower (pyStrip (pyStr ((jsonLookup m "role").getD .null))),
             (jsonLookup m "content").getD .null⟩)
        else .error .valueError) := by
  constructor
  · intro h
    simp [dict_to_chat_messages, h]
  · intro h hw
    simp only [dict_to_chat_messages, h, buildMessages]
    exact buildMessagesList_spec xs hw

/-- Witness for C9: absent key, a valid two-entry conversion (with role
normalization), and an invalid role failing with `ValueError`. -/
theorem dict_to_chat_messages_spec_witness :
    dictLookup [("foo", Json.null)] "messages" = none ∧
    dict_to_chat_messages [("foo", Json.null)] = .ok [] ∧
    dict_to_chat_messages [("messages", Json.arr
      [.obj [("role", .str "system"), ("content", .str "a")],
       .obj [("role", .str " USER "), ("content", .str "b")]])] =
      .ok [⟨"system", .str "a"⟩, ⟨"user", .str "b"⟩] ∧
    dict_to_chat_messages [("messages", Json.arr
      [.obj [("role", .str "admin"), ("content", .str "a")]])] =
      .error .valueError := by
  refine ⟨rfl, (dict_to_chat_messages_spec [("foo", Json.null)] []).1 rfl, ?_, ?_⟩
  · have h := (dict_to_chat_messages_spec [("messages", Json.arr
      [.obj [("role", .str "system"), ("content", .str "a")],
       .obj [("role", .str " USER "), ("content", .str "b")]])]
      [.obj [("role", .str "system"), ("content", .str "a")],
       .obj [("role", .str " USER "), ("content", .str "b")]]).2 rfl (by decide)
    rw [if_pos (by decide)] at h
    exact h.trans rfl
  · have h := (dict_to_chat_messages_spec [("messages", Json.arr
      [.obj [("role", .str "admin"), ("content", .str "a")]])]
      [.obj [("role", .str "admin"), ("content", .str "a")]]).2 rfl (by decide)
    rw [if_neg (by decide)] at h
    exact h
